import Mathlib

/-!
Shallow embedding of the DigiLab lab-results application (src/app.py).

The program is a CRUD application over three SQLAlchemy-mapped tables
(patients, doctors, lab_results) with file storage in a local directory
`uploaded_results`.  We model:

  * the database as an explicit `DB` state (lists of rows plus
    autoincrement counters),
  * the filesystem as an association list from path strings to byte
    contents,
  * the record operations `add_patient`, `add_doctor`, `add_lab_result`
    as pure state-passing functions (`datetime.utcnow` at insert time is
    passed in as an explicit `now : Nat` parameter),
  * the "Upload Lab Result" page submit handler and the "View Lab
    Results" page rendering as functions over those states,
  * `os.path.join` / `os.path.basename` (posix flavour) on strings.
-/

namespace DigiLab

/-- A row of the `patients` table (class `Patient`, src/app.py lines 21-28).
Dates are modelled as `Nat` (days). The `id` column is an autoincrement
primary key. -/
structure Patient where
  id : Nat
  first_name : String
  last_name : String
  date_of_birth : Nat
  gender : String
deriving Repr, DecidableEq

/-- A row of the `doctors` table (class `Doctor`, src/app.py lines 30-34). -/
structure Doctor where
  id : Nat
  name : String
  specialization : String
deriving Repr, DecidableEq

/-- The schema default of the `status` column of `lab_results`
(src/app.py line 45: `status = Column(String, default="pending")`). -/
def labResultStatusDefault : String := "pending"

/-- A row of the `lab_results` table (class `LabResult`, src/app.py lines
36-48).  `status` carries the schema default; `uploaded_at` models the
`DateTime` column whose default is `datetime.utcnow` evaluated at insert
time (the value is supplied by the caller of the insert). -/
structure LabResult where
  id : Nat
  patient_id : Nat
  test_type : String
  test_date : Nat
  result_date : Nat
  file_path : String
  notes : String
  status : String := labResultStatusDefault
  lab_technician : String
  uploaded_at : Nat
deriving Repr, DecidableEq

/-- The database state: the three tables plus autoincrement counters for
the integer primary keys. -/
structure DB where
  patients : List Patient
  doctors : List Doctor
  lab_results : List LabResult
  nextPatientId : Nat
  nextDoctorId : Nat
  nextResultId : Nat
deriving Repr, DecidableEq

/-- `add_patient(session, first_name, last_name, dob, gender)`
(src/app.py lines 59-68): builds a `Patient`, adds it, commits, and
returns it.  The committed database is returned alongside. -/
def add_patient (db : DB) (first_name last_name : String) (dob : Nat)
    (gender : String) : Patient × DB :=
  let patient : Patient :=
    { id := db.nextPatientId
      first_name := first_name
      last_name := last_name
      date_of_birth := dob
      gender := gender }
  (patient,
    { db with
        patients := db.patients ++ [patient]
        nextPatientId := db.nextPatientId + 1 })

/-- `add_doctor(session, name, specialization)` (src/app.py lines 70-74). -/
def add_doctor (db : DB) (name specialization : String) : Doctor × DB :=
  let doctor : Doctor :=
    { id := db.nextDoctorId, name := name, specialization := specialization }
  (doctor,
    { db with
        doctors := db.doctors ++ [doctor]
        nextDoctorId := db.nextDoctorId + 1 })

/-- `add_lab_result(session, patient_id, test_type, test_date, result_date,
file_path, notes, technician)` (src/app.py lines 76-89): builds a
`LabResult` with `status="completed"` set explicitly (overriding the
schema default), adds it, commits, and returns it.  `now` is the value
`datetime.utcnow()` takes when the row is inserted (the `uploaded_at`
column default, src/app.py line 47). -/
def add_lab_result (db : DB) (patient_id : Nat) (test_type : String)
    (test_date result_date : Nat) (file_path notes technician : String)
    (now : Nat) : LabResult × DB :=
  let result : LabResult :=
    { id := db.nextResultId
      patient_id := patient_id
      test_type := test_type
      test_date := test_date
      result_date := result_date
      file_path := file_path
      notes := notes
      lab_technician := technician
      status := "completed"
      uploaded_at := now }
  (result,
    { db with
        lab_results := db.lab_results ++ [result]
        nextResultId := db.nextResultId + 1 })

/-- The local filesystem, as an association list from path strings to
file contents (byte lists).  Later writes shadow earlier ones. -/
abbrev FS := List (String × List Nat)

/-- Read a file: the most recent content written at `p`, if any. -/
def fsRead (fs : FS) (p : String) : Option (List Nat) :=
  match fs.find? (fun e => e.1 == p) with
  | some e => some e.2
  | none => none

/-- `open(path, "wb"); f.write(...)`: (over)write the file at `p`. -/
def fsWrite (fs : FS) (p : String) (c : List Nat) : FS :=
  (p, c) :: fs.filter (fun e => e.1 != p)

/-- `os.path.exists(p)` restricted to files our model tracks. -/
def fsExists (fs : FS) (p : String) : Bool :=
  (fsRead fs p).isSome

/-- Does `s` start with the posix separator?  (`b.startswith(sep)` inside
`posixpath.join`.) -/
def headIsSlash (s : String) : Bool :=
  match s.toList with
  | [] => false
  | c :: _ => c == '/'

/-- Does `s` end with the posix separator?  (`path.endswith(sep)` inside
`posixpath.join`.) -/
def lastIsSlash (s : String) : Bool :=
  match s.toList.reverse with
  | [] => false
  | c :: _ => c == '/'

/-- `os.path.join(a, b)` (posix): if `b` is absolute it replaces `a`;
otherwise the separator is inserted unless `a` already ends with it. -/
def osPathJoin (a b : String) : String :=
  if headIsSlash b then b
  else if lastIsSlash a then a ++ b
  else a ++ "/" ++ b

/-- The characters after the last slash of a character list. -/
def basenameList (l : List Char) : List Char :=
  ((l.reverse.takeWhile (fun c => c != '/')).reverse)

/-- `os.path.basename(p)` (posix): everything after the last `/`. -/
def osPathBasename (s : String) : String :=
  String.mk (basenameList s.toList)

/-- An uploaded file as Streamlit's `file_uploader` delivers it: an
original name (`file.name`) and its bytes (`file.getbuffer()`). -/
structure UploadedFile where
  name : String
  content : List Nat
deriving Repr, DecidableEq

/-- The data of one submission of the `lab_result_form`
(src/app.py lines 139-148).  `file` is `None` when no file is attached. -/
structure SubmitData where
  patient_id : Nat
  test_type : String
  test_date : Nat
  result_date : Nat
  file : Option UploadedFile
  notes : String
  technician : String
deriving Repr, DecidableEq

/-- The user-visible message a page interaction produces
(`st.warning` / `st.error` / `st.success`, or nothing). -/
inductive PageMsg where
  | warning (s : String)
  | errorMsg (s : String)
  | success (s : String)
  | nothing
deriving Repr, DecidableEq

/-- The fixed upload directory (`save_dir = "uploaded_results"`,
src/app.py line 151). -/
def saveDir : String := "uploaded_results"

/-- One run of the "Upload Lab Result" page (src/app.py lines 133-160):
if no patients are registered only a warning is shown (the form is not
rendered, so `sub` is ignored); otherwise, on a submission without a
file an error is shown and nothing changes; on a submission with a file
the bytes are written to `uploaded_results/<name>` and
`add_lab_result` commits the row.  Returns the new database, the new
filesystem and the message shown. -/
def uploadPageStep (db : DB) (fs : FS) (sub : Option SubmitData)
    (now : Nat) : DB × FS × PageMsg :=
  if db.patients.isEmpty then
    (db, fs, .warning "No patients found. Please register a patient first.")
  else
    match sub with
    | none => (db, fs, .nothing)
    | some s =>
      match s.file with
      | none => (db, fs, .errorMsg "Please upload a file!")
      | some file =>
        let file_path := osPathJoin saveDir file.name
        let fs' := fsWrite fs file_path file.content
        let db' := (add_lab_result db s.patient_id s.test_type s.test_date
          s.result_date file_path s.notes s.technician now).2
        (db', fs', .success "Lab result uploaded successfully!")

/-- An observable side-effect of the upload handler, in program order. -/
inductive Event where
  | mkdirEv (dir : String)
  | fileWrite (path : String) (content : List Nat)
  | dbInsertCommit (row : LabResult)
deriving Repr, DecidableEq

/-- The ordered side-effects of one run of the "Upload Lab Result" page
(src/app.py lines 149-158): on a submission with a file, first
`os.makedirs`, then the file write, then the insert-and-commit of
`add_lab_result`; otherwise no side-effects occur. -/
def uploadTrace (db : DB) (sub : Option SubmitData) (now : Nat) :
    List Event :=
  if db.patients.isEmpty then []
  else
    match sub with
    | none => []
    | some s =>
      match s.file with
      | none => []
      | some file =>
        let file_path := osPathJoin saveDir file.name
        let row := (add_lab_result db s.patient_id s.test_type s.test_date
          s.result_date file_path s.notes s.technician now).1
        [.mkdirEv saveDir, .fileWrite file_path file.content,
          .dbInsertCommit row]

/-- `session.query(Patient).get(pid)`-style lookup by primary key. -/
def findPatient (db : DB) (pid : Nat) : Option Patient :=
  db.patients.find? (fun p => p.id == pid)

/-- One expander of the "View Lab Results" page for one result row
(src/app.py lines 166-178).  Optional fields are shown only when truthy
(non-empty); the download control is offered only when `file_path` is
truthy and the file exists on disk. -/
structure RenderedResult where
  test_type : String
  patient_name : String
  test_date : Nat
  result_date : Nat
  status : String
  lab_technician : Option String
  notes : Option String
  download : Option String
deriving Repr, DecidableEq

/-- Render one lab-result row.  Accessing `result.patient.first_name`
when the owning patient row does not exist raises in Python; we model
that as an `Except.error`. -/
def renderResult (db : DB) (fs : FS) (r : LabResult) :
    Except String RenderedResult :=
  match findPatient db r.patient_id with
  | none => .error "AttributeError: NoneType object has no attribute first_name"
  | some p =>
    .ok
      { test_type := r.test_type
        patient_name := p.first_name ++ " " ++ p.last_name
        test_date := r.test_date
        result_date := r.result_date
        status := r.status
        lab_technician :=
          if r.lab_technician != "" then some r.lab_technician else none
        notes := if r.notes != "" then some r.notes else none
        download :=
          if r.file_path != "" && fsExists fs r.file_path then
            some (osPathBasename r.file_path)
          else none }

/-- Render a list of result rows in order, stopping at the first raised
error (the page loop aborts on an uncaught exception). -/
def renderAll (db : DB) (fs : FS) : List LabResult →
    Except String (List RenderedResult)
  | [] => .ok []
  | r :: rest =>
    match renderResult db fs r with
    | .error e => .error e
    | .ok entry =>
      match renderAll db fs rest with
      | .error e => .error e
      | .ok entries => .ok (entry :: entries)

/-- The "View Lab Results" page (src/app.py lines 162-180): an
unfiltered full-table read rendered row by row. -/
def viewResultsPage (db : DB) (fs : FS) :
    Except String (List RenderedResult) :=
  renderAll db fs db.lab_results

/-- A sample registered patient, used to instantiate theorems. -/
def alice : Patient :=
  { id := 1, first_name := "Alice", last_name := "Smith",
    date_of_birth := 19900101, gender := "female" }

/-- A database holding exactly the sample patient. -/
def dbOne : DB :=
  { patients := [alice], doctors := [], lab_results := [],
    nextPatientId := 2, nextDoctorId := 1, nextResultId := 1 }

/-- The empty database (fresh schema). -/
def dbEmpty : DB :=
  { patients := [], doctors := [], lab_results := [],
    nextPatientId := 1, nextDoctorId := 1, nextResultId := 1 }

/-- A filesystem holding one uploaded file. -/
def fsOne : FS := [("uploaded_results/scan.pdf", [1, 2, 3])]

/-- A sample uploaded file. -/
def fileScan : UploadedFile := { name := "scan.pdf", content := [1, 2, 3] }

/-- A sample form submission carrying `fileScan`. -/
def subScan : SubmitData :=
  { patient_id := 1, test_type := "CBC", test_date := 100,
    result_date := 101, file := some fileScan, notes := "", technician := "T" }

end DigiLab

namespace DigiLab

/-- C1: every call to `add_lab_result` creates and persists a row whose
`status` is exactly "completed" (never the schema default "pending"),
and returns that row. -/
theorem add_lab_result_status_completed (db : DB) (pid : Nat)
    (tt : String) (td rd : Nat) (fp nts tech : String) (now : Nat) :
    (add_lab_result db pid tt td rd fp nts tech now).1.status = "completed" ∧
    (add_lab_result db pid tt td rd fp nts tech now).1.status ≠ labResultStatusDefault ∧
    (add_lab_result db pid tt td rd fp nts tech now).2.lab_results =
      db.lab_results ++ [(add_lab_result db pid tt td rd fp nts tech now).1] := by
  refine ⟨rfl, ?_, rfl⟩
  intro h
  simp [add_lab_result, labResultStatusDefault] at h

/-- C2: for all patient inputs, `add_patient` persists exactly one new
row, and the returned object's fields equal the inputs verbatim. -/
theorem add_patient_persists_inputs (db : DB) (fn ln : String) (dob : Nat)
    (g : String) :
    (add_patient db fn ln dob g).1.first_name = fn ∧
    (add_patient db fn ln dob g).1.last_name = ln ∧
    (add_patient db fn ln dob g).1.date_of_birth = dob ∧
    (add_patient db fn ln dob g).1.gender = g ∧
    (add_patient db fn ln dob g).2.patients =
      db.patients ++ [(add_patient db fn ln dob g).1] ∧
    (add_patient db fn ln dob g).2.patients.length = db.patients.length + 1 := by
  refine ⟨rfl, rfl, rfl, rfl, rfl, ?_⟩
  simp [add_patient]

/-- C3: for valid lab-result inputs whose patient id exists and whose
file was successfully written, the row persisted by `add_lab_result` has
`uploaded_at` (the insert-time clock value `now`) at least the call
time, assuming the clock does not go backwards between call and insert. -/
theorem add_lab_result_uploaded_at_ge_call (db : DB) (fs : FS) (pid : Nat)
    (tt : String) (td rd : Nat) (fp nts tech : String) (callTime now : Nat)
    (hclock : callTime ≤ now) (_hpat : (findPatient db pid).isSome = true)
    (_hfile : fsExists fs fp = true) :
    callTime ≤ (add_lab_result db pid tt td rd fp nts tech now).1.uploaded_at ∧
    (add_lab_result db pid tt td rd fp nts tech now).2.lab_results =
      db.lab_results ++ [(add_lab_result db pid tt td rd fp nts tech now).1] :=
  ⟨hclock, rfl⟩

/-- Witness for C3 at a concrete database, filesystem and clock. -/
theorem add_lab_result_uploaded_at_ge_call_witness :
    4 ≤ (add_lab_result dbOne 1 "CBC" 100 101 "uploaded_results/scan.pdf"
      "" "T" 5).1.uploaded_at :=
  (add_lab_result_uploaded_at_ge_call dbOne fsOne 1 "CBC" 100 101
    "uploaded_results/scan.pdf" "" "T" 4 5 (by decide) (by decide)
    (by decide)).1

/-- C4: when zero patients are registered, the "Upload Lab Result" page
shows only the warning and ignores any submission: the database and the
filesystem are unchanged, so no lab result can be created through the
view in that state. -/
theorem upload_page_no_patients_warns (db : DB) (fs : FS)
    (sub : Option SubmitData) (now : Nat) (h : db.patients = []) :
    uploadPageStep db fs sub now =
      (db, fs, .warning "No patients found. Please register a patient first.") := by
  simp [uploadPageStep, h]

/-- Witness for C4: an empty registry rejects even a file-carrying
submission. -/
theorem upload_page_no_patients_warns_witness :
    uploadPageStep dbEmpty [] (some subScan) 7 =
      (dbEmpty, [],
        .warning "No patients found. Please register a patient first.") :=
  upload_page_no_patients_warns dbEmpty [] (some subScan) 7 (by decide)

/-- C5: a submission of the upload form without a file shows the inline
error and has no effect: the filesystem and the database are unchanged. -/
theorem upload_submit_no_file_rejected (db : DB) (fs : FS)
    (s : SubmitData) (now : Nat) (hp : db.patients ≠ [])
    (hf : s.file = none) :
    uploadPageStep db fs (some s) now =
      (db, fs, .errorMsg "Please upload a file!") := by
  have hne : db.patients.isEmpty = false := by
    cases h : db.patients with
    | nil => exact absurd h hp
    | cons a l => rfl
  simp [uploadPageStep, hne, hf]

/-- Witness for C5 at a concrete database and submission. -/
theorem upload_submit_no_file_rejected_witness :
    uploadPageStep dbOne fsOne
      (some { subScan with file := none }) 7 =
      (dbOne, fsOne, .errorMsg "Please upload a file!") :=
  upload_submit_no_file_rejected dbOne fsOne { subScan with file := none }
    7 (by decide) (by decide)

/-- Rendering a list of rows whose owning patients all exist raises no
error, and every row contributes its rendered entry to the listing. -/
theorem renderAll_ok_of_patients (db : DB) (fs : FS) :
    ∀ l : List LabResult,
      (∀ r ∈ l, (findPatient db r.patient_id).isSome = true) →
      ∃ entries, renderAll db fs l = .ok entries ∧
        ∀ r ∈ l, ∃ e, renderResult db fs r = .ok e ∧ e ∈ entries := by
  intro l
  induction l with
  | nil => intro _; exact ⟨[], rfl, by simp⟩
  | cons r rest ih =>
    intro h
    have hr := h r (by simp)
    cases hfind : findPatient db r.patient_id with
    | none => rw [hfind] at hr; simp at hr
    | some p =>
      have he : ∃ e, renderResult db fs r = .ok e := by
        unfold renderResult
        rw [hfind]
        exact ⟨_, rfl⟩
      obtain ⟨e, he⟩ := he
      obtain ⟨entries, hent, hall⟩ := ih (fun q hq => h q (by simp [hq]))
      refine ⟨e :: entries, ?_, ?_⟩
      · unfold renderAll
        rw [he, hent]
      · intro q hq
        rcases List.mem_cons.mp hq with h1 | h2
        · subst h1; exact ⟨e, he, by simp⟩
        · obtain ⟨e2, he2, hm⟩ := hall q h2
          exact ⟨e2, he2, by simp [hm]⟩

/-- A successfully rendered row whose file is missing on disk carries no
download control. -/
theorem renderResult_download_none (db : DB) (fs : FS) (r : LabResult)
    (e : RenderedResult) (hm : fsExists fs r.file_path = false)
    (he : renderResult db fs r = .ok e) : e.download = none := by
  unfold renderResult at he
  cases hfind : findPatient db r.patient_id with
  | none => rw [hfind] at he; cases he
  | some p =>
    rw [hfind] at he
    cases he
    simp [hm]

/-- C6: every `LabResult` row whose `file_path` no longer names an
existing file is displayed by the View Lab Results listing without any
error being raised and without a download control (assuming, as the
claim does, that the listing renders at all, i.e. every row's owning
patient exists). -/
theorem view_results_missing_file_no_download (db : DB) (fs : FS)
    (r : LabResult)
    (hall : ∀ q ∈ db.lab_results, (findPatient db q.patient_id).isSome = true)
    (hr : r ∈ db.lab_results) (hm : fsExists fs r.file_path = false) :
    ∃ entries e, viewResultsPage db fs = .ok entries ∧ e ∈ entries ∧
      renderResult db fs r = .ok e ∧ e.download = none := by
  obtain ⟨entries, hent, hmem⟩ :=
    renderAll_ok_of_patients db fs db.lab_results hall
  obtain ⟨e, he, hein⟩ := hmem r hr
  exact ⟨entries, e, hent, hein, he,
    renderResult_download_none db fs r e hm he⟩

/-- A sample lab-result row whose stored file is missing from disk. -/
def resGone : LabResult :=
  { id := 1, patient_id := 1, test_type := "CBC", test_date := 100,
    result_date := 101, file_path := "uploaded_results/gone.pdf",
    notes := "", status := "completed", lab_technician := "T",
    uploaded_at := 5 }

/-- A database holding the sample patient and the dangling-file row. -/
def dbGone : DB :=
  { patients := [alice], doctors := [], lab_results := [resGone],
    nextPatientId := 2, nextDoctorId := 1, nextResultId := 2 }

/-- Witness for C6 on a concrete row with a dangling `file_path`. -/
theorem view_results_missing_file_no_download_witness :
    ∃ entries e, viewResultsPage dbGone [] = .ok entries ∧ e ∈ entries ∧
      renderResult dbGone [] resGone = .ok e ∧ e.download = none :=
  view_results_missing_file_no_download dbGone [] resGone (by decide)
    (by decide) (by decide)

/-- Reading back a path just written returns the bytes just written. -/
theorem fsRead_fsWrite_same (fs : FS) (p : String) (c : List Nat) :
    fsRead (fsWrite fs p c) p = some c := by
  simp [fsRead, fsWrite, List.find?]

/-- One run of the upload page on a submission carrying a file: the file
is written and the row is committed. -/
theorem uploadPageStep_some_file (db : DB) (fs : FS) (s : SubmitData)
    (f : UploadedFile) (now : Nat) (hne : db.patients.isEmpty = false)
    (hf : s.file = some f) :
    uploadPageStep db fs (some s) now =
      ((add_lab_result db s.patient_id s.test_type s.test_date
          s.result_date (osPathJoin saveDir f.name) s.notes s.technician
          now).2,
        fsWrite fs (osPathJoin saveDir f.name) f.content,
        .success "Lab result uploaded successfully!") := by
  simp [uploadPageStep, hne, hf]

/-- C7: two uploads with the same original filename (submitted in
sequence) produce two committed rows holding the identical `file_path`
string, and on disk the second write wins: reading the shared path back
yields the second file's bytes. -/
theorem upload_same_name_last_write_wins (db : DB) (fs : FS)
    (s1 s2 : SubmitData) (f1 f2 : UploadedFile) (t1 t2 : Nat)
    (hp : db.patients ≠ []) (h1 : s1.file = some f1)
    (h2 : s2.file = some f2) (hn : f1.name = f2.name) :
    ∃ r1 r2,
      (uploadPageStep (uploadPageStep db fs (some s1) t1).1
          (uploadPageStep db fs (some s1) t1).2.1 (some s2) t2).1.lab_results =
        db.lab_results ++ [r1, r2] ∧
      r1.file_path = r2.file_path ∧
      fsRead (uploadPageStep (uploadPageStep db fs (some s1) t1).1
          (uploadPageStep db fs (some s1) t1).2.1 (some s2) t2).2.1
        (osPathJoin saveDir f2.name) = some f2.content := by
  have hne : db.patients.isEmpty = false := by
    cases h : db.patients with
    | nil => exact absurd h hp
    | cons a l => rfl
  rw [uploadPageStep_some_file db fs s1 f1 t1 hne h1]
  have hne2 : (add_lab_result db s1.patient_id s1.test_type s1.test_date
      s1.result_date (osPathJoin saveDir f1.name) s1.notes s1.technician
      t1).2.patients.isEmpty = false := hne
  rw [uploadPageStep_some_file _ _ s2 f2 t2 hne2 h2]
  refine ⟨(add_lab_result db s1.patient_id s1.test_type s1.test_date
      s1.result_date (osPathJoin saveDir f1.name) s1.notes s1.technician
      t1).1,
    (add_lab_result (add_lab_result db s1.patient_id s1.test_type
        s1.test_date s1.result_date (osPathJoin saveDir f1.name) s1.notes
        s1.technician t1).2 s2.patient_id s2.test_type s2.test_date
        s2.result_date (osPathJoin saveDir f2.name) s2.notes s2.technician
        t2).1, ?_, ?_, ?_⟩
  · simp [add_lab_result]
  · simp [add_lab_result, hn]
  · exact fsRead_fsWrite_same
      (fsWrite fs (osPathJoin saveDir f1.name) f1.content)
      (osPathJoin saveDir f2.name) f2.content

/-- Witness for C7: two concrete uploads named "scan.pdf". -/
theorem upload_same_name_last_write_wins_witness :
    ∃ r1 r2,
      (uploadPageStep (uploadPageStep dbOne [] (some subScan) 5).1
          (uploadPageStep dbOne [] (some subScan) 5).2.1
          (some { subScan with file := some { name := "scan.pdf", content := [9] } }) 6).1.lab_results =
        dbOne.lab_results ++ [r1, r2] ∧
      r1.file_path = r2.file_path ∧
      fsRead (uploadPageStep (uploadPageStep dbOne [] (some subScan) 5).1
          (uploadPageStep dbOne [] (some subScan) 5).2.1
          (some { subScan with file := some { name := "scan.pdf", content := [9] } }) 6).2.1
        (osPathJoin saveDir "scan.pdf") = some [9] :=
  upload_same_name_last_write_wins dbOne [] subScan
    { subScan with file := some { name := "scan.pdf", content := [9] } }
    fileScan { name := "scan.pdf", content := [9] } 5 6 (by decide)
    (by decide) (by decide) (by decide)

/-- C8: in the upload handler's side-effect trace, the write of the
uploaded bytes strictly precedes the insert-and-commit of the database
row: any `fileWrite` event occurs at an earlier position than any
`dbInsertCommit` event. -/
theorem upload_write_precedes_commit (db : DB) (s : SubmitData)
    (f : UploadedFile) (now : Nat) (hp : db.patients ≠ [])
    (hf : s.file = some f) :
    ∀ (i j : Nat) (p : String) (c : List Nat) (r : LabResult),
      (uploadTrace db (some s) now)[i]? = some (Event.fileWrite p c) →
      (uploadTrace db (some s) now)[j]? = some (Event.dbInsertCommit r) →
      i < j := by
  have hne : db.patients.isEmpty = false := by
    cases h : db.patients with
    | nil => exact absurd h hp
    | cons a l => rfl
  have htr : uploadTrace db (some s) now =
      [.mkdirEv saveDir,
        .fileWrite (osPathJoin saveDir f.name) f.content,
        .dbInsertCommit (add_lab_result db s.patient_id s.test_type
          s.test_date s.result_date (osPathJoin saveDir f.name) s.notes
          s.technician now).1] := by
    simp [uploadTrace, hne, hf]
  intro i j p c r hi hj
  rw [htr] at hi hj
  rcases i with _ | _ | _ | i
  · simp at hi
  · rcases j with _ | _ | _ | j
    · simp at hj
    · simp at hj
    · omega
    · simp at hj
  · simp at hi
  · simp at hi

/-- Witness for C8: the concrete trace of a concrete upload. -/
theorem upload_write_precedes_commit_witness :
    (uploadTrace dbOne (some subScan) 5)[1]? =
      some (Event.fileWrite "uploaded_results/scan.pdf" [1, 2, 3]) ∧
    (uploadTrace dbOne (some subScan) 5)[2]? =
      some (Event.dbInsertCommit (add_lab_result dbOne 1 "CBC" 100 101
        "uploaded_results/scan.pdf" "" "T" 5).1) ∧
    1 < 2 :=
  ⟨by decide, by decide,
    upload_write_precedes_commit dbOne subScan fileScan 5 (by decide)
      (by decide) 1 2 "uploaded_results/scan.pdf" [1, 2, 3]
      (add_lab_result dbOne 1 "CBC" 100 101 "uploaded_results/scan.pdf"
        "" "T" 5).1 (by decide) (by decide)⟩

/-- C9: `add_lab_result` checks nothing about `patient_id` at the
application layer: even for an id absent from the patients table the row
is inserted and committed with that id, with no error path. -/
theorem add_lab_result_no_patient_check (db : DB) (pid : Nat)
    (tt : String) (td rd : Nat) (fp nts tech : String) (now : Nat)
    (_h : findPatient db pid = none) :
    (add_lab_result db pid tt td rd fp nts tech now).1.patient_id = pid ∧
    (add_lab_result db pid tt td rd fp nts tech now).2.lab_results =
      db.lab_results ++ [(add_lab_result db pid tt td rd fp nts tech now).1] :=
  ⟨rfl, rfl⟩

/-- Witness for C9: inserting a result for the unregistered id 99. -/
theorem add_lab_result_no_patient_check_witness :
    (add_lab_result dbOne 99 "CBC" 100 101 "uploaded_results/scan.pdf"
      "" "T" 5).1.patient_id = 99 ∧
    (add_lab_result dbOne 99 "CBC" 100 101 "uploaded_results/scan.pdf"
      "" "T" 5).2.lab_results =
      dbOne.lab_results ++ [(add_lab_result dbOne 99 "CBC" 100 101
        "uploaded_results/scan.pdf" "" "T" 5).1] :=
  add_lab_result_no_patient_check dbOne 99 "CBC" 100 101
    "uploaded_results/scan.pdf" "" "T" 5 (by decide)

/-- `takeWhile` up to a slash returns exactly the slash-free head. -/
theorem takeWhile_until_slash (r : List Char) :
    ∀ l : List Char, (∀ c ∈ l, c ≠ '/') →
      (l ++ '/' :: r).takeWhile (fun c => c != '/') = l := by
  intro l
  induction l with
  | nil => intro _; simp [List.takeWhile]
  | cons a l ih =>
    intro h
    have ha : (a != '/') = true := by
      simpa using h a (by simp)
    simp [List.takeWhile, ha, ih (fun c hc => h c (by simp [hc]))]

/-- The basename of a directory-slash-name character list is the name,
provided the name holds no slash. -/
theorem basenameList_append (d nl : List Char)
    (hn : ∀ c ∈ nl, c ≠ '/') :
    basenameList ((d ++ ['/']) ++ nl) = nl := by
  unfold basenameList
  have h1 : ((d ++ ['/']) ++ nl).reverse = nl.reverse ++ ('/' :: d.reverse) := by
    simp
  rw [h1, takeWhile_until_slash d.reverse nl.reverse
    (fun c hc => hn c (List.mem_reverse.mp hc)), List.reverse_reverse]

/-- `toList` distributes over string append. -/
theorem strToList_append (a b : String) :
    (a ++ b).toList = a.toList ++ b.toList :=
  String.data_append a b

/-- C10: an uploaded original filename `n` containing no path separator
is stored at the join of the fixed directory with `n`, namely
`uploaded_results/<n>`, and the basename recomputed from the stored path
at download time is `n` again: the original filename round-trips through
storage. -/
theorem upload_filename_roundtrip (n : String) (h : '/' ∉ n.toList) :
    osPathJoin saveDir n = "uploaded_results/" ++ n ∧
    osPathBasename (osPathJoin saveDir n) = n := by
  have hh : headIsSlash n = false := by
    unfold headIsSlash
    cases hn : n.toList with
    | nil => rfl
    | cons c l =>
      have hc : c ≠ '/' := by
        intro hc
        exact h (by rw [hn, hc]; exact List.mem_cons_self _ _)
      simpa using hc
  have hl : lastIsSlash saveDir = false := by decide
  have hj : osPathJoin saveDir n = (saveDir ++ "/") ++ n := by
    simp [osPathJoin, hh, hl]
  have hcat : saveDir ++ "/" = "uploaded_results/" := by decide
  refine ⟨by rw [hj, hcat], ?_⟩
  rw [hj]
  show String.mk (basenameList (((saveDir ++ "/") ++ n).toList)) = n
  have hdata : ((saveDir ++ "/") ++ n).toList =
      (saveDir.toList ++ ['/']) ++ n.toList := by
    rw [strToList_append, strToList_append]
    rfl
  rw [hdata, basenameList_append saveDir.toList n.toList
    (fun c hc hceq => h (hceq ▸ hc))]
  rfl

/-- Witness for C10 on the concrete filename "scan.pdf". -/
theorem upload_filename_roundtrip_witness :
    osPathJoin saveDir "scan.pdf" = "uploaded_results/" ++ "scan.pdf" ∧
    osPathBasename (osPathJoin saveDir "scan.pdf") = "scan.pdf" :=
  upload_filename_roundtrip "scan.pdf" (by decide)

end DigiLab
